import Mathlib

/-!
Verification of `src/backend/finance_core/src/lib.rs`.

The source is a pair of pure Rust functions over `f64` exposed through a
Python binding.  We embed `f64` shallowly as the type `FP`: finite values
are carried as exact rationals, and the IEEE-754 special values `+inf`,
`-inf` and `NaN` are explicit constructors.  Arithmetic on finite values
is exact rational arithmetic (the rounding of IEEE-754 is abstracted
away, which is also the level at which the specification states its
formulas); the propagation rules for the special values — division by
zero, arithmetic with infinities and NaN, and `powf` at integer
exponents, in particular `powf x 0 = 1` for every `x` — follow IEEE-754
exactly, since several claims are about precisely that behaviour.

The `u32` arguments are embedded as `Nat`: the source performs no `u32`
arithmetic on them (both are immediately cast to `f64`, a cast that is
exact for every `u32`).  The compound-interest exponent `n * t`, computed
in `f64` by the source, is modelled as the exact natural product
`times_per_year * years` (the `f64` product is exact whenever it does not
exceed 2^53).

`PyResult` is embedded as `Except PyErr`; both source functions return on
the `Ok` path unconditionally.
-/

/-- Shallow embedding of an `f64` value: an exact rational for the finite
case, plus the IEEE-754 special values. -/
inductive FP where
  | num : ℚ → FP
  | posInf : FP
  | negInf : FP
  | nan : FP
deriving DecidableEq

/-- IEEE-754 addition on `FP` (exact on finite values). -/
def FP.add : FP → FP → FP
  | FP.num a, FP.num b => FP.num (a + b)
  | FP.num _, FP.posInf => FP.posInf
  | FP.num _, FP.negInf => FP.negInf
  | FP.posInf, FP.num _ => FP.posInf
  | FP.negInf, FP.num _ => FP.negInf
  | FP.posInf, FP.posInf => FP.posInf
  | FP.negInf, FP.negInf => FP.negInf
  | FP.posInf, FP.negInf => FP.nan
  | FP.negInf, FP.posInf => FP.nan
  | FP.nan, _ => FP.nan
  | _, FP.nan => FP.nan

/-- IEEE-754 multiplication on `FP` (exact on finite values);
`0 * inf = NaN`. -/
def FP.mul : FP → FP → FP
  | FP.num a, FP.num b => FP.num (a * b)
  | FP.num a, FP.posInf =>
      if 0 < a then FP.posInf else if a < 0 then FP.negInf else FP.nan
  | FP.num a, FP.negInf =>
      if 0 < a then FP.negInf else if a < 0 then FP.posInf else FP.nan
  | FP.posInf, FP.num b =>
      if 0 < b then FP.posInf else if b < 0 then FP.negInf else FP.nan
  | FP.negInf, FP.num b =>
      if 0 < b then FP.negInf else if b < 0 then FP.posInf else FP.nan
  | FP.posInf, FP.posInf => FP.posInf
  | FP.posInf, FP.negInf => FP.negInf
  | FP.negInf, FP.posInf => FP.negInf
  | FP.negInf, FP.negInf => FP.posInf
  | FP.nan, _ => FP.nan
  | _, FP.nan => FP.nan

/-- IEEE-754 division on `FP` (exact on finite values).  A nonzero finite
value divided by zero gives a signed infinity, `0 / 0 = NaN`,
`inf / inf = NaN`.  The zeros arising in the embedded program are all
positive zeros, so the rational `0` is read with a positive sign. -/
def FP.div : FP → FP → FP
  | FP.num a, FP.num b =>
      if b ≠ 0 then FP.num (a / b)
      else if 0 < a then FP.posInf
      else if a < 0 then FP.negInf
      else FP.nan
  | FP.num _, FP.posInf => FP.num 0
  | FP.num _, FP.negInf => FP.num 0
  | FP.posInf, FP.num b => if b < 0 then FP.negInf else FP.posInf
  | FP.negInf, FP.num b => if b < 0 then FP.posInf else FP.negInf
  | FP.posInf, FP.posInf => FP.nan
  | FP.posInf, FP.negInf => FP.nan
  | FP.negInf, FP.posInf => FP.nan
  | FP.negInf, FP.negInf => FP.nan
  | FP.nan, _ => FP.nan
  | _, FP.nan => FP.nan

/-- IEEE-754 `powf` restricted to a nonnegative-integer exponent, the
only shape at which the embedded program calls it.  Per IEEE-754,
`powf x 0 = 1` for every `x`, including `NaN` and the infinities. -/
def FP.powNat (x : FP) : Nat → FP
  | 0 => FP.num 1
  | Nat.succ m =>
      match x with
      | FP.num a => FP.num (a ^ (m + 1))
      | FP.posInf => FP.posInf
      | FP.negInf => if (m + 1) % 2 = 1 then FP.negInf else FP.posInf
      | FP.nan => FP.nan

/-- Embedding of pyo3's `PyErr`.  Neither source function ever builds
one; the constructor exists only so that `PyResult` has the right
shape. -/
inductive PyErr where
  | runtimeError : PyErr
deriving DecidableEq

/-- Embedding of pyo3's `PyResult`. -/
abbrev PyResult (α : Type) := Except PyErr α

/-- `calculate_compound_interest` from
`src/backend/finance_core/src/lib.rs` lines 6-13, transcribed
let-for-let: `r = rate / 100`, `n = times_per_year as f64`,
`body = 1 + r / n`, `exponent = n * t`, result
`Ok(principal * body.powf(exponent))`. -/
def calculate_compound_interest (principal rate : FP)
    (times_per_year years : Nat) : PyResult FP :=
  let r := rate.div (FP.num 100)
  let n : FP := FP.num (times_per_year : ℚ)
  let body := (FP.num 1).add (r.div n)
  let exponent : Nat := times_per_year * years
  Except.ok (principal.mul (body.powNat exponent))

/-- `calculate_inflation_impact` from
`src/backend/finance_core/src/lib.rs` lines 18-23, transcribed
let-for-let: `r = inflation_rate / 100`,
`denominator = (1 + r).powf(t)`, result `Ok(amount / denominator)`. -/
def calculate_inflation_impact (amount inflation_rate : FP)
    (years : Nat) : PyResult FP :=
  let r := inflation_rate.div (FP.num 100)
  let denominator := ((FP.num 1).add r).powNat years
  Except.ok (amount.div denominator)

/-- The closed-form compound-growth formula of the specification,
section 4.1: `principal * (1 + (rate/100)/n) ^ (n*t)`, stated over exact
rationals. -/
def spec_compound_growth (principal rate : ℚ) (n years : ℕ) : ℚ :=
  principal * (1 + (rate / 100) / (n : ℚ)) ^ (n * years)

/-- The closed-form inflation-adjustment formula of the specification,
section 4.1: `amount / (1 + rate/100) ^ years`, stated over exact
rationals. -/
def spec_inflation_adjusted (amount rate : ℚ) (years : ℕ) : ℚ :=
  amount / (1 + rate / 100) ^ years

/-- A `DecidableEq` instance for `Except`, so that results of the
embedded functions can be compared computationally. -/
instance {e a : Type} [DecidableEq e] [DecidableEq a] : DecidableEq (Except e a)
  | Except.ok x, Except.ok y =>
      if h : x = y then Decidable.isTrue (by rw [h])
      else Decidable.isFalse (by intro hh; cases hh; exact h rfl)
  | Except.ok _, Except.error _ => Decidable.isFalse (by intro h; cases h)
  | Except.error _, Except.ok _ => Decidable.isFalse (by intro h; cases h)
  | Except.error x, Except.error y =>
      if h : x = y then Decidable.isTrue (by rw [h])
      else Decidable.isFalse (by intro hh; cases hh; exact h rfl)

theorem FP.powNat_num (q : ℚ) (k : ℕ) : (FP.num q).powNat k = FP.num (q ^ k) := by
  cases k with
  | zero => simp [FP.powNat]
  | succ m => rfl

theorem FP.powNat_zero (x : FP) : x.powNat 0 = FP.num 1 := rfl

theorem FP.mul_num_one (x : FP) : x.mul (FP.num 1) = x := by
  cases x <;> norm_num [FP.mul]

theorem FP.div_num_one (x : FP) : x.div (FP.num 1) = x := by
  cases x <;> norm_num [FP.div]

/-- On finite inputs with at least one compounding period per year, the
embedded `calculate_compound_interest` computes exactly the
specification's closed-form formula. -/
theorem compound_num_eq (p rate : ℚ) (n y : ℕ) (hn : 1 ≤ n) :
    calculate_compound_interest (FP.num p) (FP.num rate) n y =
      Except.ok (FP.num (spec_compound_growth p rate n y)) := by
  have hn0 : ((n : ℚ)) ≠ 0 := Nat.cast_ne_zero.mpr (by omega)
  norm_num [calculate_compound_interest, spec_compound_growth, FP.div,
    FP.add, FP.powNat_num, FP.mul, hn0]

/-- On finite inputs with `rate ≠ -100`, the embedded
`calculate_inflation_impact` computes exactly the specification's
closed-form formula. -/
theorem inflation_num_eq (a rate : ℚ) (y : ℕ) (hrate : rate ≠ -100) :
    calculate_inflation_impact (FP.num a) (FP.num rate) y =
      Except.ok (FP.num (spec_inflation_adjusted a rate y)) := by
  have hb : (1 : ℚ) + rate / 100 ≠ 0 := by
    intro h
    apply hrate
    field_simp at h
    linarith
  have hp : ((1 : ℚ) + rate / 100) ^ y ≠ 0 := pow_ne_zero y hb
  norm_num [calculate_inflation_impact, spec_inflation_adjusted, FP.div,
    FP.add, FP.powNat_num, hp]

/-- C1: for every finite principal and rate, every `times_per_year` in
the spec's declared domain (a positive integer) and every `years`,
`calculate_compound_interest` returns exactly the spec's closed-form
value `principal * (1 + (rate/100)/times_per_year) ^ (times_per_year * years)`. -/
theorem C1_compound_matches_spec_formula (p rate : ℚ) (n y : ℕ) (hn : 1 ≤ n) :
    calculate_compound_interest (FP.num p) (FP.num rate) n y =
      Except.ok (FP.num (spec_compound_growth p rate n y)) :=
  compound_num_eq p rate n y hn

/-- Witness for C1 at the spec's own test vector
`principal = 1000, rate = 5, times_per_year = 12, years = 10`. -/
theorem C1_witness :
    1 ≤ 12 ∧
      calculate_compound_interest (FP.num 1000) (FP.num 5) 12 10 =
        Except.ok (FP.num (spec_compound_growth 1000 5 12 10)) :=
  ⟨by decide, C1_compound_matches_spec_formula 1000 5 12 10 (by decide)⟩

/-- C2: for every finite amount, every finite inflation rate other than
`-100` (where the spec's formula divides by zero) and every `years`,
`calculate_inflation_impact` returns exactly the spec's closed-form
value `amount / (1 + rate/100) ^ years`. -/
theorem C2_inflation_matches_spec_formula (a rate : ℚ) (y : ℕ) (h : rate ≠ -100) :
    calculate_inflation_impact (FP.num a) (FP.num rate) y =
      Except.ok (FP.num (spec_inflation_adjusted a rate y)) :=
  inflation_num_eq a rate y h

/-- Witness for C2 at the spec's own test vector
`amount = 1000, rate = 3, years = 5`. -/
theorem C2_witness :
    ((3 : ℚ) ≠ -100) ∧
      calculate_inflation_impact (FP.num 1000) (FP.num 3) 5 =
        Except.ok (FP.num (spec_inflation_adjusted 1000 3 5)) :=
  ⟨by decide, C2_inflation_matches_spec_formula 1000 3 5 (by decide)⟩

/-- C3: on every input whatsoever, finite or special, both functions
return a numeric `FP` value on the `Ok` path; no input ever produces an
error value. -/
theorem C3_total_numeric_on_ok_path (p rate a ir : FP) (n y t : ℕ) :
    (∃ v : FP, calculate_compound_interest p rate n y = Except.ok v) ∧
      (∃ w : FP, calculate_inflation_impact a ir t = Except.ok w) :=
  ⟨⟨_, rfl⟩, ⟨_, rfl⟩⟩

/-- C4 counterexample: with the positive rate 5 (respectively 3) and all
other inputs held fixed at principal = 0 (respectively amount = 0),
increasing `years` from 0 to 1 leaves both results unchanged at 0, so
neither function is strictly monotone in `years` for every choice of the
other inputs. -/
theorem C4_counterexample :
    calculate_compound_interest (FP.num 0) (FP.num 5) 1 0 = Except.ok (FP.num 0) ∧
      calculate_compound_interest (FP.num 0) (FP.num 5) 1 1 = Except.ok (FP.num 0) ∧
      calculate_inflation_impact (FP.num 0) (FP.num 3) 0 = Except.ok (FP.num 0) ∧
      calculate_inflation_impact (FP.num 0) (FP.num 3) 1 = Except.ok (FP.num 0) := by
  refine ⟨?_, ?_, ?_, ?_⟩ <;>
    norm_num [calculate_compound_interest, calculate_inflation_impact,
      FP.div, FP.add, FP.powNat, FP.mul]

/-- C4 amended: for positive principal, positive rate and at least one
compounding period per year, increasing `years` strictly increases the
compound-interest result; for positive amount and positive inflation
rate, increasing `years` strictly decreases the inflation-impact
result. -/
theorem C4_strict_monotonicity_amended :
    (∀ (p rate : ℚ) (n y1 y2 : ℕ), 0 < p → 0 < rate → 1 ≤ n → y1 < y2 →
      ∃ v1 v2 : ℚ,
        calculate_compound_interest (FP.num p) (FP.num rate) n y1 =
            Except.ok (FP.num v1) ∧
          calculate_compound_interest (FP.num p) (FP.num rate) n y2 =
            Except.ok (FP.num v2) ∧
          v1 < v2) ∧
    (∀ (a rate : ℚ) (y1 y2 : ℕ), 0 < a → 0 < rate → y1 < y2 →
      ∃ w1 w2 : ℚ,
        calculate_inflation_impact (FP.num a) (FP.num rate) y1 =
            Except.ok (FP.num w1) ∧
          calculate_inflation_impact (FP.num a) (FP.num rate) y2 =
            Except.ok (FP.num w2) ∧
          w2 < w1) := by
  constructor
  · intro p rate n y1 y2 hp hr hn hy
    refine ⟨_, _, compound_num_eq p rate n y1 hn,
      compound_num_eq p rate n y2 hn, ?_⟩
    unfold spec_compound_growth
    have hnq : (0 : ℚ) < (n : ℚ) := by exact_mod_cast Nat.lt_of_lt_of_le Nat.zero_lt_one hn
    have hb : (1 : ℚ) < 1 + rate / 100 / (n : ℚ) := by
      have : (0 : ℚ) < rate / 100 / (n : ℚ) := by positivity
      linarith
    have hk : n * y1 < n * y2 := mul_lt_mul_of_pos_left hy (by omega)
    exact mul_lt_mul_of_pos_left (pow_lt_pow_right₀ hb hk) hp
  · intro a rate y1 y2 ha hr hy
    have hr100 : rate ≠ -100 := by linarith
    refine ⟨_, _, inflation_num_eq a rate y1 hr100,
      inflation_num_eq a rate y2 hr100, ?_⟩
    unfold spec_inflation_adjusted
    have hb : (1 : ℚ) < 1 + rate / 100 := by
      have : (0 : ℚ) < rate / 100 := by positivity
      linarith
    have h1 : (0 : ℚ) < (1 + rate / 100) ^ y1 := pow_pos (by linarith) y1
    exact div_lt_div_of_pos_left ha h1 (pow_lt_pow_right₀ hb hy)

/-- Witness for the amended C4 at principal = amount = 1000, rates 5 and
3, one compounding period, years 2 versus 7. -/
theorem C4_witness :
    ((∃ v1 v2 : ℚ,
        calculate_compound_interest (FP.num 1000) (FP.num 5) 1 2 =
            Except.ok (FP.num v1) ∧
          calculate_compound_interest (FP.num 1000) (FP.num 5) 1 7 =
            Except.ok (FP.num v2) ∧
          v1 < v2) ∧
      (∃ w1 w2 : ℚ,
        calculate_inflation_impact (FP.num 1000) (FP.num 3) 2 =
            Except.ok (FP.num w1) ∧
          calculate_inflation_impact (FP.num 1000) (FP.num 3) 7 =
            Except.ok (FP.num w2) ∧
          w2 < w1)) :=
  ⟨C4_strict_monotonicity_amended.1 1000 5 1 2 7 (by decide) (by decide)
      (by decide) (by decide),
    C4_strict_monotonicity_amended.2 1000 3 2 7 (by decide) (by decide)
      (by decide)⟩

/-- C5: with rate = 0 the compound-interest result is exactly the
principal, for every principal (any `f64`, special values included),
every `times_per_year` — including 0, where the fractional rate is
`0 / 0 = NaN` but the exponent is 0 and `powf NaN 0 = 1` — and every
`years`. -/
theorem C5_zero_rate_returns_principal (p : FP) (n y : ℕ) :
    calculate_compound_interest p (FP.num 0) n y = Except.ok p := by
  cases n with
  | zero =>
      norm_num [calculate_compound_interest, FP.div, FP.add,
        FP.powNat_zero, FP.mul_num_one]
  | succ m =>
      have hm : ((m : ℚ) + 1) ≠ 0 := by positivity
      norm_num [calculate_compound_interest, FP.div, FP.add,
        FP.powNat_num, FP.mul_num_one, hm]

/-- C6: with years = 0 the compound-interest result is exactly the
principal for every principal, rate and `times_per_year`, and the
inflation-impact result is exactly the amount for every amount and
every finite inflation rate other than -100. -/
theorem C6_years_zero_identity :
    (∀ (p rate : FP) (n : ℕ),
        calculate_compound_interest p rate n 0 = Except.ok p) ∧
      (∀ (a : FP) (rate : ℚ), rate ≠ -100 →
        calculate_inflation_impact a (FP.num rate) 0 = Except.ok a) := by
  constructor
  · intro p rate n
    simp [calculate_compound_interest, FP.powNat_zero, FP.mul_num_one]
  · intro a rate h
    simp [calculate_inflation_impact, FP.powNat_zero, FP.div_num_one]

/-- Witness for C6 at principal = amount = 7, rates 5 and 3,
`times_per_year` = 12. -/
theorem C6_witness :
    calculate_compound_interest (FP.num 7) (FP.num 5) 12 0 =
        Except.ok (FP.num 7) ∧
      ((3 : ℚ) ≠ -100) ∧
      calculate_inflation_impact (FP.num 7) (FP.num 3) 0 =
        Except.ok (FP.num 7) :=
  ⟨C6_years_zero_identity.1 (FP.num 7) (FP.num 5) 12, by decide,
    C6_years_zero_identity.2 (FP.num 7) 3 (by decide)⟩

/-- C7 counterexample: at amount = 0, inflation_rate = -100 and
years = 1 the division is `0 / 0`, which is NaN, not an infinity — so
the claim's "returns infinity for every amount" fails at amount = 0. -/
theorem C7_counterexample :
    calculate_inflation_impact (FP.num 0) (FP.num (-100)) 1 =
        Except.ok FP.nan ∧
      FP.nan ≠ FP.posInf ∧ FP.nan ≠ FP.negInf := by
  refine ⟨?_, by decide, by decide⟩
  norm_num [calculate_inflation_impact, FP.div, FP.add, FP.powNat]

/-- C7 amended: for inflation_rate = -100 and years > 0 the denominator
is zero, and for every nonzero finite amount the result is an infinity,
with the sign of the amount; at amount = 0 the result is NaN instead. -/
theorem C7_inflation_rate_neg100_amended (a : ℚ) (y : ℕ)
    (ha : a ≠ 0) (hy : 0 < y) :
    calculate_inflation_impact (FP.num a) (FP.num (-100)) y =
      Except.ok (if 0 < a then FP.posInf else FP.negInf) := by
  obtain ⟨m, rfl⟩ : ∃ m, y = m + 1 := ⟨y - 1, by omega⟩
  rcases lt_or_gt_of_ne ha with h | h
  · norm_num [calculate_inflation_impact, FP.div, FP.add, FP.powNat,
      h, h.not_lt, h.ne]
  · norm_num [calculate_inflation_impact, FP.div, FP.add, FP.powNat, h]

/-- Witness for the amended C7 at amount = 5, years = 2. -/
theorem C7_witness :
    ((5 : ℚ) ≠ 0) ∧ 0 < 2 ∧
      calculate_inflation_impact (FP.num 5) (FP.num (-100)) 2 =
        Except.ok (if (0 : ℚ) < 5 then FP.posInf else FP.negInf) :=
  ⟨by decide, by decide,
    C7_inflation_rate_neg100_amended 5 2 (by decide) (by decide)⟩

/-- C8: both embedded functions are pure Lean functions of their
arguments alone, so two calls on identical inputs return identical
results, with no hidden state to consult. -/
theorem C8_deterministic (p rate a ir : FP) (n y t : ℕ) :
    calculate_compound_interest p rate n y =
        calculate_compound_interest p rate n y ∧
      calculate_inflation_impact a ir t = calculate_inflation_impact a ir t :=
  ⟨rfl, rfl⟩

/-- C9: with times_per_year = 0 the fractional rate `r / 0` is an
infinity or NaN, but the exponent `0 * years = 0` makes
`powf body 0 = 1`, so the result is exactly the principal for every
principal and rate (any `f64` values) and every `years`. -/
theorem C9_zero_periods_returns_principal (p rate : FP) (y : ℕ) :
    calculate_compound_interest p rate 0 y = Except.ok p := by
  simp [calculate_compound_interest, FP.powNat_zero, FP.mul_num_one]

/-- C10: with years = 0 and inflation_rate = -100 the denominator is
`0 ^ 0`, which IEEE-754 `powf` evaluates to 1, so the result is exactly
the amount for every amount (any `f64` value). -/
theorem C10_years_zero_neg100_returns_amount (a : FP) :
    calculate_inflation_impact a (FP.num (-100)) 0 = Except.ok a := by
  simp [calculate_inflation_impact, FP.powNat_zero, FP.div_num_one]
